import Mathlib

/-!
# cafe.js: password matcher and profile-form toggler

A shallow embedding of `web/js/cafe.js` and the properties of its two handlers.

The script touches three elements of the hosting document, found by id:
`password`, `confirm_password` (text inputs) and `changeProfileForm` (a container).
`document.getElementById` returns `null` for an id that is absent, so each of the three
is an `Option`.  A handler either completes or throws a `TypeError` (member access on
`null`); since a thrown handler may already have mutated the document, every operation
returns both the exception, if any, and the page it leaves behind.

JavaScript strings are modelled by `String`, and `!=` / `===` between two strings by
equality of strings.
-/

namespace Cafe

/-! ## Data model -/

/-- Exceptions the script can raise: reading or writing a member of `null`. -/
inductive JSError where
  | TypeError
  deriving DecidableEq, Repr

/-- The functions declared by the script, as values storable in an `on<event>` property. -/
inductive Handler where
  | validatePassword
  | showChangeProfile
  deriving DecidableEq, Repr

/-- A text input: its `value`, the message last given to `setCustomValidity`
(empty = valid), and its `on<event>` handler properties keyed by event type
(`handler "change"` is `onchange`, `handler "keyup"` is `onkeyup`). -/
structure InputElement where
  value : String
  customValidity : String
  handler : String → Option Handler

/-- An element of which the script only uses `style.display`. -/
structure StyledElement where
  display : String
  deriving DecidableEq, Repr

/-- The part of the page the script can see.  `password` and `confirm_password` are the
script's two global variables (lines 1-2: the results of `getElementById`), and
`changeProfileForm` is the result of `document.getElementById("changeProfileForm")`. -/
structure Page where
  password : Option InputElement
  confirm_password : Option InputElement
  changeProfileForm : Option StyledElement

/-- What running a piece of script leaves behind: the exception thrown, if any,
and the page after it. -/
structure Outcome where
  thrown : Option JSError
  page : Page

/-! ## Host operations used by the script -/

/-- The method `el.setCustomValidity(msg)`. -/
def setCustomValidity (el : InputElement) (msg : String) : InputElement :=
  { el with customValidity := msg }

/-- The assignment `el.on<ev> = h`. -/
def setHandler (el : InputElement) (ev : String) (h : Handler) : InputElement :=
  { el with handler := fun e => if e = ev then some h else el.handler e }

/-! ## The script -/

/-- Lines 4-10 of `cafe.js`: `function validatePassword()`. -/
def validatePassword (pg : Page) : Outcome :=
  match pg.password with
  | none => ⟨some JSError.TypeError, pg⟩
  | some pw =>
    match pg.confirm_password with
    | none => ⟨some JSError.TypeError, pg⟩
    | some cf =>
      if pw.value != cf.value then
        ⟨none, { pg with confirm_password := some (setCustomValidity cf "Passwords Don't Match") }⟩
      else
        ⟨none, { pg with confirm_password := some (setCustomValidity cf "") }⟩

/-- Lines 16-23 of `cafe.js`: `function showChangeProfile()`. -/
def showChangeProfile (pg : Page) : Outcome :=
  match pg.changeProfileForm with
  | none => ⟨some JSError.TypeError, pg⟩
  | some x =>
    if x.display == "none" then
      ⟨none, { pg with changeProfileForm := some { x with display := "block" } }⟩
    else
      ⟨none, { pg with changeProfileForm := some { x with display := "none" } }⟩

/-- Lines 12-13 of `cafe.js`, the top-level statements run when the script loads:
`password.onchange = validatePassword; confirm_password.onkeyup = validatePassword;`.
The second assignment is reached only when the first did not throw. -/
def loadScript (pg : Page) : Outcome :=
  match pg.password with
  | none => ⟨some JSError.TypeError, pg⟩
  | some pw =>
    let pg1 : Page := { pg with password := some (setHandler pw "change" Handler.validatePassword) }
    match pg1.confirm_password with
    | none => ⟨some JSError.TypeError, pg1⟩
    | some cf =>
      ⟨none, { pg1 with confirm_password := some (setHandler cf "keyup" Handler.validatePassword) }⟩

/-! ## Event dispatch by the host -/

/-- Calling a stored handler runs the function it names. -/
def callHandler : Handler → Page → Outcome
  | Handler.validatePassword => validatePassword
  | Handler.showChangeProfile => showChangeProfile

/-- The two input fields as event targets. -/
inductive Field where
  | password
  | confirm_password
  deriving DecidableEq, Repr

/-- The element a target denotes. -/
def Page.field (pg : Page) : Field → Option InputElement
  | Field.password => pg.password
  | Field.confirm_password => pg.confirm_password

/-- The host delivering an event of type `ev` to a field: the field's `on<ev>` property
is called when it holds a function, and nothing happens otherwise. -/
def dispatchEvent (target : Field) (ev : String) (pg : Page) : Outcome :=
  match pg.field target with
  | none => ⟨none, pg⟩
  | some el =>
    match el.handler ev with
    | none => ⟨none, pg⟩
    | some h => callHandler h pg

/-! ## Observations used in the statements -/

/-- The container counts as hidden exactly when its inline display is `"none"`. -/
def StyledElement.hidden (x : StyledElement) : Prop := x.display = "none"

instance (x : StyledElement) : Decidable x.hidden :=
  inferInstanceAs (Decidable (x.display = "none"))

/-- The custom validity message of the confirm-password field, when the field exists. -/
def Page.validityMessage (pg : Page) : Option String :=
  pg.confirm_password.map InputElement.customValidity

/-- The inline display value of the container, when the container exists. -/
def Page.display (pg : Page) : Option String :=
  pg.changeProfileForm.map StyledElement.display

/-- A page in which nothing is bound yet, for concrete evaluation. -/
def samplePage (p c v d : String) : Page :=
  { password := some ⟨p, "", fun _ => none⟩
    confirm_password := some ⟨c, v, fun _ => none⟩
    changeProfileForm := some ⟨d⟩ }

/-! ## Shared lemmas -/

/-- With both fields present the matcher completes, and rewrites only the custom
validity message of the confirm field. -/
theorem validatePassword_present (pg : Page) (pw cf : InputElement)
    (hpw : pg.password = some pw) (hcf : pg.confirm_password = some cf) :
    validatePassword pg =
      ⟨none, { pg with confirm_password := some (setCustomValidity cf
        (if pw.value = cf.value then "" else "Passwords Don't Match")) }⟩ := by
  unfold validatePassword
  rw [hpw, hcf]
  by_cases h : pw.value = cf.value <;> simp [h]

/-- With the container present the toggler completes, and rewrites only its display. -/
theorem showChangeProfile_present (pg : Page) (x : StyledElement)
    (hx : pg.changeProfileForm = some x) :
    showChangeProfile pg =
      ⟨none, { pg with changeProfileForm := some { x with
        display := if x.display = "none" then "block" else "none" } }⟩ := by
  unfold showChangeProfile
  rw [hx]
  by_cases h : x.display = "none" <;> simp [h]

/-- Without the container the toggler throws and leaves the page as it was. -/
theorem showChangeProfile_absent (pg : Page) (hx : pg.changeProfileForm = none) :
    showChangeProfile pg = ⟨some JSError.TypeError, pg⟩ := by
  unfold showChangeProfile
  rw [hx]

/-! ## Password matcher -/

/-- C1: with password value `p` and confirm value `c`, whatever the validity message was
before, `validatePassword` completes and leaves the confirm field's custom validity
message exactly `""` when `p = c` and exactly `"Passwords Don't Match"` when `p ≠ c`;
the comparison is plain equality of the two strings. -/
theorem validatePassword_sets_message (pg : Page) (pw cf : InputElement)
    (hpw : pg.password = some pw) (hcf : pg.confirm_password = some cf) :
    (validatePassword pg).thrown = none ∧
    (pw.value = cf.value → (validatePassword pg).page.validityMessage = some "") ∧
    (pw.value ≠ cf.value →
      (validatePassword pg).page.validityMessage = some "Passwords Don't Match") := by
  rw [validatePassword_present pg pw cf hpw hcf]
  refine ⟨rfl, ?_, ?_⟩
  · intro h
    simp [Page.validityMessage, setCustomValidity, h]
  · intro h
    simp [Page.validityMessage, setCustomValidity, h]

/-- Scenarios of C1: `"abc123"` against `"abc124"` gives the mismatch message, also when
the field was valid before; the outcome is computed by the general theorem. -/
theorem validatePassword_sets_message_witness :
    (validatePassword (samplePage "abc123" "abc124" "" "block")).thrown = none ∧
    ("abc123" = "abc124" →
      (validatePassword (samplePage "abc123" "abc124" "" "block")).page.validityMessage
        = some "") ∧
    ("abc123" ≠ "abc124" →
      (validatePassword (samplePage "abc123" "abc124" "" "block")).page.validityMessage
        = some "Passwords Don't Match") :=
  validatePassword_sets_message (samplePage "abc123" "abc124" "" "block")
    ⟨"abc123", "", fun _ => none⟩ ⟨"abc124", "", fun _ => none⟩ rfl rfl

/-- C3: in the page left by any invocation of `validatePassword` (both fields present),
the confirm field's custom validity message is non-empty if and only if the confirm
field's value differs from the password field's value, both read in that same page. -/
theorem validatePassword_validity_invariant (pg : Page) (pw cf : InputElement)
    (hpw : pg.password = some pw) (hcf : pg.confirm_password = some cf) :
    ∃ pw1 cf1 : InputElement,
      (validatePassword pg).page.password = some pw1 ∧
      (validatePassword pg).page.confirm_password = some cf1 ∧
      (cf1.customValidity ≠ "" ↔ cf1.value ≠ pw1.value) := by
  rw [validatePassword_present pg pw cf hpw hcf]
  refine ⟨pw, _, hpw, rfl, ?_⟩
  by_cases h : pw.value = cf.value
  · simp [setCustomValidity, h]
  · have h1 : ¬ cf.value = pw.value := fun e => h e.symm
    simp [setCustomValidity, h, h1]

/-- The invariant of C3 at a page whose stale message said "valid" for unequal values. -/
theorem validatePassword_validity_invariant_witness :
    ∃ pw1 cf1 : InputElement,
      (validatePassword (samplePage "secret" "Secret" "" "")).page.password = some pw1 ∧
      (validatePassword (samplePage "secret" "Secret" "" "")).page.confirm_password
        = some cf1 ∧
      (cf1.customValidity ≠ "" ↔ cf1.value ≠ pw1.value) :=
  validatePassword_validity_invariant (samplePage "secret" "Secret" "" "")
    ⟨"secret", "", fun _ => none⟩ ⟨"Secret", "", fun _ => none⟩ rfl rfl

/-- C5: `validatePassword` is idempotent: run on the page it has just produced, it
completes again and produces that same page; and its outcome does not depend on the
validity message set before the call (overwriting that message first changes nothing). -/
theorem validatePassword_idempotent (pg : Page) (pw cf : InputElement)
    (hpw : pg.password = some pw) (hcf : pg.confirm_password = some cf) :
    validatePassword (validatePassword pg).page = validatePassword pg ∧
    ∀ stale : String,
      validatePassword { pg with confirm_password := some (setCustomValidity cf stale) }
        = validatePassword pg := by
  have again : ∀ msg : String,
      validatePassword { pg with confirm_password := some (setCustomValidity cf msg) }
        = validatePassword pg := by
    intro msg
    rw [validatePassword_present pg pw cf hpw hcf,
      validatePassword_present
        { pg with confirm_password := some (setCustomValidity cf msg) }
        pw (setCustomValidity cf msg) hpw rfl]
    simp [setCustomValidity]
  refine ⟨?_, again⟩
  have once := validatePassword_present pg pw cf hpw hcf
  rw [once]
  exact (again _).trans once

/-- Idempotence of C5 on a mismatching page carrying a stale message. -/
theorem validatePassword_idempotent_witness :
    validatePassword (validatePassword (samplePage "a" "b" "old" "none")).page
      = validatePassword (samplePage "a" "b" "old" "none") ∧
    ∀ stale : String,
      validatePassword { samplePage "a" "b" "old" "none" with
          confirm_password := some (setCustomValidity ⟨"b", "old", fun _ => none⟩ stale) }
        = validatePassword (samplePage "a" "b" "old" "none") :=
  validatePassword_idempotent (samplePage "a" "b" "old" "none")
    ⟨"a", "", fun _ => none⟩ ⟨"b", "old", fun _ => none⟩ rfl rfl

/-- C6: frame of the matcher: `validatePassword` leaves the password field and the
container untouched, and of the confirm field changes at most the custom validity
message; so both values and the display are what they were before the call. -/
theorem validatePassword_frame (pg : Page) (pw cf : InputElement)
    (hpw : pg.password = some pw) (hcf : pg.confirm_password = some cf) :
    (validatePassword pg).page.password = some pw ∧
    (validatePassword pg).page.changeProfileForm = pg.changeProfileForm ∧
    (validatePassword pg).page.display = pg.display ∧
    (∃ msg : String,
      (validatePassword pg).page.confirm_password = some { cf with customValidity := msg }) ∧
    (validatePassword pg).page.confirm_password.map InputElement.value = some cf.value ∧
    (validatePassword pg).page.password.map InputElement.value = some pw.value := by
  rw [validatePassword_present pg pw cf hpw hcf]
  refine ⟨hpw, rfl, rfl, ⟨_, rfl⟩, ?_, ?_⟩
  · simp [setCustomValidity]
  · simp [hpw]

/-- The frame of C6 at a concrete page. -/
theorem validatePassword_frame_witness :
    (validatePassword (samplePage "p1" "p2" "" "inline")).page.password
      = some ⟨"p1", "", fun _ => none⟩ ∧
    (validatePassword (samplePage "p1" "p2" "" "inline")).page.changeProfileForm
      = (samplePage "p1" "p2" "" "inline").changeProfileForm ∧
    (validatePassword (samplePage "p1" "p2" "" "inline")).page.display
      = (samplePage "p1" "p2" "" "inline").display ∧
    (∃ msg : String,
      (validatePassword (samplePage "p1" "p2" "" "inline")).page.confirm_password
        = some { (⟨"p2", "", fun _ => none⟩ : InputElement) with customValidity := msg }) ∧
    (validatePassword (samplePage "p1" "p2" "" "inline")).page.confirm_password.map
      InputElement.value = some "p2" ∧
    (validatePassword (samplePage "p1" "p2" "" "inline")).page.password.map
      InputElement.value = some "p1" :=
  validatePassword_frame (samplePage "p1" "p2" "" "inline")
    ⟨"p1", "", fun _ => none⟩ ⟨"p2", "", fun _ => none⟩ rfl rfl

/-! ## Section toggler -/

/-- C2: for every current display value `s` of the container, one call of
`showChangeProfile` completes and leaves the display exactly `"block"` when `s` was
exactly `"none"`, and exactly `"none"` for every other `s`. -/
theorem showChangeProfile_display (pg : Page) (x : StyledElement)
    (hx : pg.changeProfileForm = some x) :
    (showChangeProfile pg).thrown = none ∧
    (x.display = "none" → (showChangeProfile pg).page.display = some "block") ∧
    (x.display ≠ "none" → (showChangeProfile pg).page.display = some "none") := by
  rw [showChangeProfile_present pg x hx]
  refine ⟨rfl, ?_, ?_⟩
  · intro h
    simp [Page.display, h]
  · intro h
    simp [Page.display, h]

/-- Scenario of C2 with a display that is neither `"none"` nor `"block"`. -/
theorem showChangeProfile_display_witness :
    (showChangeProfile (samplePage "" "" "" "inline")).thrown = none ∧
    ("inline" = "none" →
      (showChangeProfile (samplePage "" "" "" "inline")).page.display = some "block") ∧
    ("inline" ≠ "none" →
      (showChangeProfile (samplePage "" "" "" "inline")).page.display = some "none") :=
  showChangeProfile_display (samplePage "" "" "" "inline") ⟨"inline"⟩ rfl

/-- C4: every call of `showChangeProfile` flips the visibility (hidden = display
`"none"`, visible = anything else): the container is hidden after one call iff it was
visible before, hidden after two calls iff it was hidden at the start, and two calls
from exactly `"none"` end at exactly `"none"`. -/
theorem showChangeProfile_flips (pg : Page) (x : StyledElement)
    (hx : pg.changeProfileForm = some x) :
    ∃ x1 x2 : StyledElement,
      (showChangeProfile pg).page.changeProfileForm = some x1 ∧
      (showChangeProfile (showChangeProfile pg).page).page.changeProfileForm = some x2 ∧
      (x1.hidden ↔ ¬ x.hidden) ∧
      (x2.hidden ↔ x.hidden) ∧
      (x.display = "none" → x2.display = "none") := by
  have one := showChangeProfile_present pg x hx
  rw [one]
  rw [showChangeProfile_present _ _ rfl]
  refine ⟨_, _, rfl, rfl, ?_, ?_, ?_⟩
  · by_cases h : x.display = "none" <;> simp [StyledElement.hidden, h]
  · by_cases h : x.display = "none" <;> simp [StyledElement.hidden, h]
  · intro h
    simp [h]

/-- The flip of C4 starting from the unset display, which counts as visible. -/
theorem showChangeProfile_flips_witness :
    ∃ x1 x2 : StyledElement,
      (showChangeProfile (samplePage "" "" "" "")).page.changeProfileForm = some x1 ∧
      (showChangeProfile (showChangeProfile (samplePage "" "" "" "")).page).page.changeProfileForm
        = some x2 ∧
      (x1.hidden ↔ ¬ (⟨""⟩ : StyledElement).hidden) ∧
      (x2.hidden ↔ (⟨""⟩ : StyledElement).hidden) ∧
      ((⟨""⟩ : StyledElement).display = "none" → x2.display = "none") :=
  showChangeProfile_flips (samplePage "" "" "" "") ⟨""⟩ rfl

/-- C10: after any call of `showChangeProfile` the display is `"none"` or `"block"`;
two calls give back the original display exactly when it was `"none"` or `"block"`
(from any other value they give `"block"`); three calls leave the same page, hence the
same display, as one call. -/
theorem showChangeProfile_range (pg : Page) (x : StyledElement)
    (hx : pg.changeProfileForm = some x) :
    ((showChangeProfile pg).page.display = some "none" ∨
      (showChangeProfile pg).page.display = some "block") ∧
    ((showChangeProfile (showChangeProfile pg).page).page.display = some x.display ↔
      (x.display = "none" ∨ x.display = "block")) ∧
    (x.display ≠ "none" → x.display ≠ "block" →
      (showChangeProfile (showChangeProfile pg).page).page.display = some "block") ∧
    showChangeProfile (showChangeProfile (showChangeProfile pg).page).page
      = showChangeProfile pg := by
  have one := showChangeProfile_present pg x hx
  rw [one]
  rw [showChangeProfile_present _ _ rfl]
  rw [showChangeProfile_present _ _ rfl]
  by_cases h : x.display = "none"
  · simp [Page.display, h]
  · by_cases hb : x.display = "block"
    · simp [Page.display, hb]
    · have hb1 : ¬ "block" = x.display := fun e => hb e.symm
      simp [Page.display, h, hb, hb1]

/-- The range property of C10 from the unset display: two calls yield `"block"`. -/
theorem showChangeProfile_range_witness :
    ((showChangeProfile (samplePage "" "" "" "")).page.display = some "none" ∨
      (showChangeProfile (samplePage "" "" "" "")).page.display = some "block") ∧
    ((showChangeProfile (showChangeProfile (samplePage "" "" "" "")).page).page.display
        = some (⟨""⟩ : StyledElement).display ↔
      ((⟨""⟩ : StyledElement).display = "none" ∨ (⟨""⟩ : StyledElement).display = "block")) ∧
    ((⟨""⟩ : StyledElement).display ≠ "none" → (⟨""⟩ : StyledElement).display ≠ "block" →
      (showChangeProfile (showChangeProfile (samplePage "" "" "" "")).page).page.display
        = some "block") ∧
    showChangeProfile (showChangeProfile (showChangeProfile (samplePage "" "" "" "")).page).page
      = showChangeProfile (samplePage "" "" "" "") :=
  showChangeProfile_range (samplePage "" "" "" "") ⟨""⟩ rfl

/-- C9: with `getElementById` returning an optional element, `showChangeProfile` throws
if and only if there is no `changeProfileForm` element; when it throws the page is
unchanged; when the element exists the call completes, whatever the display value. -/
theorem showChangeProfile_throws_iff_absent (pg : Page) :
    ((showChangeProfile pg).thrown = some JSError.TypeError ↔ pg.changeProfileForm = none) ∧
    ((showChangeProfile pg).thrown ≠ none ↔ pg.changeProfileForm = none) ∧
    ((showChangeProfile pg).thrown ≠ none → (showChangeProfile pg).page = pg) ∧
    (∀ x : StyledElement, pg.changeProfileForm = some x →
      (showChangeProfile pg).thrown = none) := by
  cases hx : pg.changeProfileForm with
  | none =>
    rw [showChangeProfile_absent pg hx]
    simp
  | some x =>
    rw [showChangeProfile_present pg x hx]
    simp

/-! ## Independence of the two handlers, and event wiring -/

/-- C7: `showChangeProfile` leaves both input fields (values and custom validity
message included) as they were, and the two handlers commute: for every page, elements
present or not, running `validatePassword` then `showChangeProfile` leaves the same page
as running them the other way round, and each handler throws in one order exactly when
it throws in the other. -/
theorem handlers_commute (pg : Page) :
    (showChangeProfile pg).page.password = pg.password ∧
    (showChangeProfile pg).page.confirm_password = pg.confirm_password ∧
    (showChangeProfile pg).page.validityMessage = pg.validityMessage ∧
    (showChangeProfile (validatePassword pg).page).page
      = (validatePassword (showChangeProfile pg).page).page ∧
    (showChangeProfile (validatePassword pg).page).thrown = (showChangeProfile pg).thrown ∧
    (validatePassword (showChangeProfile pg).page).thrown = (validatePassword pg).thrown := by
  rcases pg with ⟨_ | pw, _ | cf, _ | x⟩
  · simp [validatePassword, showChangeProfile, Page.validityMessage]
  · by_cases hd : x.display = "none" <;>
      simp [validatePassword, showChangeProfile, Page.validityMessage, hd]
  · simp [validatePassword, showChangeProfile, Page.validityMessage]
  · by_cases hd : x.display = "none" <;>
      simp [validatePassword, showChangeProfile, Page.validityMessage, hd]
  · simp [validatePassword, showChangeProfile, Page.validityMessage]
  · by_cases hd : x.display = "none" <;>
      simp [validatePassword, showChangeProfile, Page.validityMessage, hd]
  · by_cases hv : pw.value = cf.value <;>
      simp [validatePassword, showChangeProfile, Page.validityMessage, hv]
  · by_cases hv : pw.value = cf.value <;> by_cases hd : x.display = "none" <;>
      simp [validatePassword, showChangeProfile, Page.validityMessage, hv, hd]

/-- C8: when the script loads on a page holding both fields it completes, and afterwards
`onchange` of the password field and `onkeyup` of the confirm field are both
`validatePassword`; every other handler property of either field is what it was before,
so an event type unbound before is bound to the matcher exactly when it is that one.
Hence on every page whose fields carry these handler properties, a `change` event on the
password field and a `keyup` event on the confirm field each act as a direct call of
`validatePassword`. -/
theorem loadScript_wires_matcher (pg : Page) (pw cf : InputElement)
    (hpw : pg.password = some pw) (hcf : pg.confirm_password = some cf) :
    (loadScript pg).thrown = none ∧
    ∃ pw1 cf1 : InputElement,
      (loadScript pg).page.password = some pw1 ∧
      (loadScript pg).page.confirm_password = some cf1 ∧
      pw1.handler "change" = some Handler.validatePassword ∧
      cf1.handler "keyup" = some Handler.validatePassword ∧
      (∀ ev : String, ev ≠ "change" → pw1.handler ev = pw.handler ev) ∧
      (∀ ev : String, ev ≠ "keyup" → cf1.handler ev = cf.handler ev) ∧
      (∀ ev : String, pw.handler ev = none →
        (pw1.handler ev = some Handler.validatePassword ↔ ev = "change")) ∧
      (∀ ev : String, cf.handler ev = none →
        (cf1.handler ev = some Handler.validatePassword ↔ ev = "keyup")) ∧
      dispatchEvent Field.password "change" (loadScript pg).page
        = validatePassword (loadScript pg).page ∧
      dispatchEvent Field.confirm_password "keyup" (loadScript pg).page
        = validatePassword (loadScript pg).page ∧
      (∀ (later : Page) (pw2 : InputElement), later.password = some pw2 →
        pw2.handler = pw1.handler →
        dispatchEvent Field.password "change" later = validatePassword later) ∧
      (∀ (later : Page) (cf2 : InputElement), later.confirm_password = some cf2 →
        cf2.handler = cf1.handler →
        dispatchEvent Field.confirm_password "keyup" later = validatePassword later) := by
  have loaded : loadScript pg = ⟨none, { pg with
      password := some (setHandler pw "change" Handler.validatePassword)
      confirm_password := some (setHandler cf "keyup" Handler.validatePassword) }⟩ := by
    unfold loadScript
    rw [hpw]
    simp only [hcf]
  rw [loaded]
  refine ⟨rfl, _, _, rfl, rfl, ?_, ?_, ?_, ?_, ?_, ?_, ?_, ?_, ?_, ?_⟩
  · simp [setHandler]
  · simp [setHandler]
  · intro ev hev
    simp [setHandler, hev]
  · intro ev hev
    simp [setHandler, hev]
  · intro ev hev
    by_cases h : ev = "change" <;> simp [setHandler, h, hev]
  · intro ev hev
    by_cases h : ev = "keyup" <;> simp [setHandler, h, hev]
  · simp [dispatchEvent, Page.field, setHandler, callHandler]
  · simp [dispatchEvent, Page.field, setHandler, callHandler]
  · intro later pw2 h1 h2
    simp [dispatchEvent, Page.field, h1, h2, setHandler, callHandler]
  · intro later cf2 h1 h2
    simp [dispatchEvent, Page.field, h1, h2, setHandler, callHandler]

/-- The wiring of C8 on a fresh page: loading completes, and both events then act as
a direct call of the matcher. -/
theorem loadScript_wires_matcher_witness :
    (loadScript (samplePage "abc123" "abc124" "" "none")).thrown = none ∧
    dispatchEvent Field.password "change" (loadScript (samplePage "abc123" "abc124" "" "none")).page
      = validatePassword (loadScript (samplePage "abc123" "abc124" "" "none")).page ∧
    dispatchEvent Field.confirm_password "keyup"
        (loadScript (samplePage "abc123" "abc124" "" "none")).page
      = validatePassword (loadScript (samplePage "abc123" "abc124" "" "none")).page := by
  obtain ⟨h0, _, _, _, _, _, _, _, _, _, _, h1, h2, _⟩ :=
    loadScript_wires_matcher (samplePage "abc123" "abc124" "" "none")
      ⟨"abc123", "", fun _ => none⟩ ⟨"abc124", "", fun _ => none⟩ rfl rfl
  exact ⟨h0, h1, h2⟩

end Cafe
